import Mathlib

/-
Shallow embedding of the YASH library (Yet Another SVG Helper).

Source layout:
  Path.ts  -- the Path builder: an accumulated SVG command string, a default
              coordinate-mode flag, and fill/stroke presentation attributes.
  Text.ts  -- the Text builder: body, position, anchor, font properties.
  TextFontProperties.ts -- record of font family list, color, size, weight.
  SVG.ts   -- the container: a selector plus an ordered element list; render
              looks up the first node matching the selector and appends the
              materialized elements in order.

JS numbers are modelled as Int: every coordinate appearing in the claims is
integral, and template-literal rendering of an integral JS number agrees with
Int.toString. DOM elements are modelled as a tag plus an ordered attribute
list; the mount node found by the selector is modelled as a Sink holding its
ordered list of children. The unguarded querySelectorAll(sel)[0] of render is
modelled by List.head?, and the JS TypeError thrown by appendChild on
undefined is modelled by an explicit error value.
-/

namespace YASH

/-- A DOM element as produced by toXML: tag name, attribute list in the order
setAttribute was called, and the innerHTML text content. -/
structure Element where
  tag : String
  attributes : List (String × String)
  innerHTML : String
deriving DecidableEq

/-- A mount node located by the selector, holding its ordered children. -/
structure Sink where
  children : List Element
deriving DecidableEq

/-- Path.ts: export const ABSOLUTE: boolean = false. -/
def ABSOLUTE : Bool := false

/-- Path.ts: export const RELATIVE: boolean = true. -/
def RELATIVE : Bool := true

/-- The private fields of class Path. -/
structure Path where
  pathString : String
  relative : Bool
  fillColor : String
  strokeColor : String
  strokeWidth : Int
deriving DecidableEq

/-- Path constructor: takes pathString (default empty) and relative
(default ABSOLUTE); field initializers give fillColor black, strokeColor
none, strokeWidth 1. -/
def Path.new (pathString : String) (relative : Bool) : Path :=
  { pathString := pathString
    relative := relative
    fillColor := "black"
    strokeColor := "none"
    strokeWidth := 1 }

/-- JS String.prototype.toUpperCase as used on the single-letter ASCII SVG
command strings, written with List.map so concrete instances reduce in the
kernel. -/
def jsToUpperCase (s : String) : String :=
  String.mk (s.data.map Char.toUpper)

/-- Path.addCommand: upper-cases cmd when not relative, then appends
cmd args and a trailing space when args is non-null, else appends cmd
alone.  args = none models the null argument used by close. -/
def Path.addCommand (p : Path) (cmd : String) (args : Option String) (relative : Bool) : Path :=
  let cmd := if !relative then jsToUpperCase cmd else cmd
  match args with
  | some a => { p with pathString := p.pathString ++ (cmd ++ " " ++ a ++ " ") }
  | none => { p with pathString := p.pathString ++ cmd }

/-- Path.moveTo: the optional relative parameter defaults at call time to
the stored mode, modelled by Option.getD. -/
def Path.moveTo (p : Path) (x y : Int) (relative : Option Bool) : Path :=
  p.addCommand "m" (some (toString x ++ "," ++ toString y)) (relative.getD p.relative)

/-- Path.m: shorthand for moveTo with RELATIVE. -/
def Path.m (p : Path) (dx dy : Int) : Path :=
  p.moveTo dx dy (some RELATIVE)

/-- Path.M: shorthand for moveTo with ABSOLUTE. -/
def Path.M (p : Path) (x y : Int) : Path :=
  p.moveTo x y (some ABSOLUTE)

/-- Path.lineTo. -/
def Path.lineTo (p : Path) (x y : Int) (relative : Option Bool) : Path :=
  p.addCommand "l" (some (toString x ++ "," ++ toString y)) (relative.getD p.relative)

/-- Path.l: shorthand for lineTo with RELATIVE. -/
def Path.l (p : Path) (dx dy : Int) : Path :=
  p.lineTo dx dy (some RELATIVE)

/-- Path.L: shorthand for lineTo with ABSOLUTE. -/
def Path.L (p : Path) (x y : Int) : Path :=
  p.lineTo x y (some ABSOLUTE)

/-- Path.curveTo. -/
def Path.curveTo (p : Path) (x1 y1 x2 y2 endX endY : Int) (relative : Option Bool) : Path :=
  p.addCommand "c"
    (some (toString x1 ++ "," ++ toString y1 ++ " " ++
           toString x2 ++ "," ++ toString y2 ++ " " ++
           toString endX ++ "," ++ toString endY))
    (relative.getD p.relative)

/-- Path.c: shorthand for curveTo with RELATIVE. -/
def Path.c (p : Path) (dx1 dy1 dx2 dy2 endDX endDY : Int) : Path :=
  p.curveTo dx1 dy1 dx2 dy2 endDX endDY (some RELATIVE)

/-- Path.C: shorthand for curveTo with ABSOLUTE. -/
def Path.C (p : Path) (x1 y1 x2 y2 endX endY : Int) : Path :=
  p.curveTo x1 y1 x2 y2 endX endY (some ABSOLUTE)

/-- Path.quadCurveTo. -/
def Path.quadCurveTo (p : Path) (x1 y1 endX endY : Int) (relative : Option Bool) : Path :=
  p.addCommand "q"
    (some (toString x1 ++ "," ++ toString y1 ++ " " ++
           toString endX ++ "," ++ toString endY))
    (relative.getD p.relative)

/-- Path.q: shorthand for quadCurveTo with RELATIVE. -/
def Path.q (p : Path) (dx1 dy2 endDX endDY : Int) : Path :=
  p.quadCurveTo dx1 dy2 endDX endDY (some RELATIVE)

/-- Path.Q: shorthand for quadCurveTo with ABSOLUTE. -/
def Path.Q (p : Path) (x1 y1 endX endY : Int) : Path :=
  p.quadCurveTo x1 y1 endX endY (some ABSOLUTE)

/-- Path.cubicCurveTo: emits the smooth-cubic letter t. -/
def Path.cubicCurveTo (p : Path) (x y : Int) (relative : Option Bool) : Path :=
  p.addCommand "t" (some (toString x ++ "," ++ toString y)) (relative.getD p.relative)

/-- Path.t: shorthand for cubicCurveTo with RELATIVE. -/
def Path.t (p : Path) (dx dy : Int) : Path :=
  p.cubicCurveTo dx dy (some RELATIVE)

/-- Path.T: shorthand for cubicCurveTo with ABSOLUTE. -/
def Path.T (p : Path) (x y : Int) : Path :=
  p.cubicCurveTo x y (some ABSOLUTE)

/-- Path.close: addCommand with letter Z, null args, relative false. -/
def Path.close (p : Path) : Path :=
  p.addCommand "Z" none false

/-- Path.Z: alias calling close. -/
def Path.Z (p : Path) : Path :=
  p.close

/-- Path.setFill. -/
def Path.setFill (p : Path) (fillColor : String) : Path :=
  { p with fillColor := fillColor }

/-- Path.setStroke: the optional width defaults at call time to the stored
width, modelled by Option.getD. -/
def Path.setStroke (p : Path) (strokeColor : String) (strokeWidth : Option Int) : Path :=
  { p with strokeColor := strokeColor, strokeWidth := strokeWidth.getD p.strokeWidth }

/-- Path.setStrokeWidth. -/
def Path.setStrokeWidth (p : Path) (strokeWidth : Int) : Path :=
  { p with strokeWidth := strokeWidth }

/-- Path.toXML: a path element with attributes d, fill, stroke and
stroke-width set from the state, the width converted to its string form. -/
def Path.toXML (p : Path) : Element :=
  { tag := "path"
    attributes :=
      [("d", p.pathString),
       ("fill", p.fillColor),
       ("stroke", p.strokeColor),
       ("stroke-width", toString p.strokeWidth)]
    innerHTML := "" }

/-- TextFontProperties.ts: family has runtime type string array or null,
modelled as Option (List String); class initializer is the empty array. -/
structure TextFontProperties where
  family : Option (List String)
  color : String
  size : String
  weight : String
deriving DecidableEq

/-- Field initializers of TextFontProperties. -/
def TextFontProperties.new : TextFontProperties :=
  { family := some []
    color := ""
    size := ""
    weight := "normal" }

/-- The private fields of class Text. -/
structure Text where
  body : String
  x : Int
  y : Int
  textAnchor : String
  fontProperties : TextFontProperties
deriving DecidableEq

/-- Text constructor: stores body, x, y and overwrites the font family with
the fonts argument, whose declared default is null (modelled none). -/
def Text.new (body : String) (x y : Int) (fonts : Option (List String)) : Text :=
  { body := body
    x := x
    y := y
    textAnchor := ""
    fontProperties := { TextFontProperties.new with family := fonts } }

/-- Text.setBody. -/
def Text.setBody (t : Text) (body : String) : Text :=
  { t with body := body }

/-- Text.setPosition. -/
def Text.setPosition (t : Text) (x y : Int) : Text :=
  { t with x := x, y := y }

/-- Text.setFonts: stores the given list (a JS string array, never null via
this typed entry point). -/
def Text.setFonts (t : Text) (fonts : List String) : Text :=
  { t with fontProperties := { t.fontProperties with family := some fonts } }

/-- Text.setColor. -/
def Text.setColor (t : Text) (color : String) : Text :=
  { t with fontProperties := { t.fontProperties with color := color } }

/-- Text.setAnchor. -/
def Text.setAnchor (t : Text) (position : String) : Text :=
  { t with textAnchor := position }

/-- Text.toXML: a text element with innerHTML the body; the font-family
attribute is set only when the family field is truthy, and a JS array is
truthy even when empty, so the guard is isSome; the value is the families
joined by commas. -/
def Text.toXML (t : Text) : Element :=
  { tag := "text"
    attributes :=
      [("x", toString t.x), ("y", toString t.y)] ++
      (match t.fontProperties.family with
       | some fam => [("font-family", String.intercalate "," fam)]
       | none => []) ++
      [("font-size", t.fontProperties.size),
       ("fill", t.fontProperties.color),
       ("font-weight", t.fontProperties.weight),
       ("text-anchor", t.textAnchor)]
    innerHTML := t.body }

/-- ISVGElement: the closed set of drawables, dispatched at materialization. -/
inductive ISVGElement where
  | path (p : Path)
  | text (t : Text)
deriving DecidableEq

/-- Dispatch of toXML over the drawable variants. -/
def ISVGElement.toXML : ISVGElement → Element
  | .path p => p.toXML
  | .text t => t.toXML

/-- Errors observable from render: the TypeError JS throws when appendChild
is read from an undefined lookup result, and a reported lookup error as the
specification describes it (the code never produces the latter). -/
inductive JSError where
  | typeError (msg : String)
  | lookupError (msg : String)
deriving DecidableEq

/-- The private fields of class SVG. -/
structure SVG where
  selector : String
  elements : List ISVGElement
deriving DecidableEq

/-- SVG constructor. -/
def SVG.new (selector : String) (elements : List ISVGElement) : SVG :=
  { selector := selector, elements := elements }

/-- SVG.add: pushes the element and returns the instance. -/
def SVG.add (s : SVG) (element : ISVGElement) : SVG :=
  { s with elements := s.elements ++ [element] }

/-- SVG.render: querySelectorAll(selector)[0] is modelled by head? over the
document query; when a sink exists every element is materialized and
appended in order; when none exists the first appendChild on the undefined
sink throws a TypeError, and with no elements the forEach body never runs
so nothing happens. -/
def SVG.render (s : SVG) (query : String → List Sink) : Except JSError (Option Sink) :=
  match (query s.selector).head? with
  | some svg => .ok (some { svg with children := svg.children ++ s.elements.map ISVGElement.toXML })
  | none =>
    match s.elements with
    | [] => .ok none
    | _ :: _ => .error (.typeError "Cannot read properties of undefined (reading appendChild)")

/-- True exactly when a render outcome is a reported lookup error. -/
def isLookupError : Except JSError (Option Sink) → Bool
  | .error (.lookupError _) => true
  | _ => false

/-- One drawing-command call on a Path, covering every general form with its
optional mode argument and every shorthand variant. -/
inductive PathCmd where
  | moveTo (x y : Int) (relative : Option Bool)
  | m (dx dy : Int)
  | bigM (x y : Int)
  | lineTo (x y : Int) (relative : Option Bool)
  | l (dx dy : Int)
  | bigL (x y : Int)
  | curveTo (x1 y1 x2 y2 endX endY : Int) (relative : Option Bool)
  | c (dx1 dy1 dx2 dy2 endDX endDY : Int)
  | bigC (x1 y1 x2 y2 endX endY : Int)
  | quadCurveTo (x1 y1 endX endY : Int) (relative : Option Bool)
  | q (dx1 dy2 endDX endDY : Int)
  | bigQ (x1 y1 endX endY : Int)
  | cubicCurveTo (x y : Int) (relative : Option Bool)
  | t (dx dy : Int)
  | bigT (x y : Int)
  | close
  | bigZ
deriving DecidableEq

/-- Executes one drawing-command call on a Path. -/
def PathCmd.apply (p : Path) : PathCmd → Path
  | .moveTo x y rel => p.moveTo x y rel
  | .m dx dy => p.m dx dy
  | .bigM x y => p.M x y
  | .lineTo x y rel => p.lineTo x y rel
  | .l dx dy => p.l dx dy
  | .bigL x y => p.L x y
  | .curveTo x1 y1 x2 y2 ex ey rel => p.curveTo x1 y1 x2 y2 ex ey rel
  | .c a1 b1 a2 b2 a3 b3 => p.c a1 b1 a2 b2 a3 b3
  | .bigC a1 b1 a2 b2 a3 b3 => p.C a1 b1 a2 b2 a3 b3
  | .quadCurveTo x1 y1 ex ey rel => p.quadCurveTo x1 y1 ex ey rel
  | .q a1 b1 a2 b2 => p.q a1 b1 a2 b2
  | .bigQ a1 b1 a2 b2 => p.Q a1 b1 a2 b2
  | .cubicCurveTo x y rel => p.cubicCurveTo x y rel
  | .t dx dy => p.t dx dy
  | .bigT x y => p.T x y
  | .close => p.close
  | .bigZ => p.Z

/-- The formatted fragment of one command letter and argument string under a
resolved mode, mirroring the branch structure of addCommand. -/
def formatFragment (cmd : String) (args : Option String) (relative : Bool) : String :=
  let cmd := if !relative then jsToUpperCase cmd else cmd
  match args with
  | some a => cmd ++ " " ++ a ++ " "
  | none => cmd

/-- The fragment a command contributes when the default mode of the Path at
call time is mode. -/
def PathCmd.fragment (mode : Bool) : PathCmd → String
  | .moveTo x y rel =>
    formatFragment "m" (some (toString x ++ "," ++ toString y)) (rel.getD mode)
  | .m dx dy =>
    formatFragment "m" (some (toString dx ++ "," ++ toString dy)) RELATIVE
  | .bigM x y =>
    formatFragment "m" (some (toString x ++ "," ++ toString y)) ABSOLUTE
  | .lineTo x y rel =>
    formatFragment "l" (some (toString x ++ "," ++ toString y)) (rel.getD mode)
  | .l dx dy =>
    formatFragment "l" (some (toString dx ++ "," ++ toString dy)) RELATIVE
  | .bigL x y =>
    formatFragment "l" (some (toString x ++ "," ++ toString y)) ABSOLUTE
  | .curveTo x1 y1 x2 y2 ex ey rel =>
    formatFragment "c"
      (some (toString x1 ++ "," ++ toString y1 ++ " " ++
             toString x2 ++ "," ++ toString y2 ++ " " ++
             toString ex ++ "," ++ toString ey)) (rel.getD mode)
  | .c a b c2 d e f =>
    formatFragment "c"
      (some (toString a ++ "," ++ toString b ++ " " ++
             toString c2 ++ "," ++ toString d ++ " " ++
             toString e ++ "," ++ toString f)) RELATIVE
  | .bigC a b c2 d e f =>
    formatFragment "c"
      (some (toString a ++ "," ++ toString b ++ " " ++
             toString c2 ++ "," ++ toString d ++ " " ++
             toString e ++ "," ++ toString f)) ABSOLUTE
  | .quadCurveTo x1 y1 ex ey rel =>
    formatFragment "q"
      (some (toString x1 ++ "," ++ toString y1 ++ " " ++
             toString ex ++ "," ++ toString ey)) (rel.getD mode)
  | .q a b c2 d =>
    formatFragment "q"
      (some (toString a ++ "," ++ toString b ++ " " ++
             toString c2 ++ "," ++ toString d)) RELATIVE
  | .bigQ a b c2 d =>
    formatFragment "q"
      (some (toString a ++ "," ++ toString b ++ " " ++
             toString c2 ++ "," ++ toString d)) ABSOLUTE
  | .cubicCurveTo x y rel =>
    formatFragment "t" (some (toString x ++ "," ++ toString y)) (rel.getD mode)
  | .t dx dy =>
    formatFragment "t" (some (toString dx ++ "," ++ toString dy)) RELATIVE
  | .bigT x y =>
    formatFragment "t" (some (toString x ++ "," ++ toString y)) ABSOLUTE
  | .close => formatFragment "Z" none false
  | .bigZ => formatFragment "Z" none false

/-- Concatenation of a list of fragments in order. -/
def concatStrings : List String → String
  | [] => ""
  | s :: rest => s ++ concatStrings rest

/-- Runs a sequence of drawing-command calls from left to right. -/
def runPathCmds (p : Path) (cs : List PathCmd) : Path :=
  cs.foldl PathCmd.apply p

/-- One call appends exactly its fragment, computed against the mode stored
at call time. -/
theorem PathCmd.apply_pathString (p : Path) (c : PathCmd) :
    (c.apply p).pathString = p.pathString ++ c.fragment p.relative := by
  cases c <;> rfl

/-- No drawing-command call changes the stored default mode. -/
theorem PathCmd.apply_relative (p : Path) (c : PathCmd) :
    (c.apply p).relative = p.relative := by
  cases c <;> rfl

/-- No drawing-command call changes the fill color. -/
theorem PathCmd.apply_fillColor (p : Path) (c : PathCmd) :
    (c.apply p).fillColor = p.fillColor := by
  cases c <;> rfl

/-- No drawing-command call changes the stroke color. -/
theorem PathCmd.apply_strokeColor (p : Path) (c : PathCmd) :
    (c.apply p).strokeColor = p.strokeColor := by
  cases c <;> rfl

/-- No drawing-command call changes the stroke width. -/
theorem PathCmd.apply_strokeWidth (p : Path) (c : PathCmd) :
    (c.apply p).strokeWidth = p.strokeWidth := by
  cases c <;> rfl

/-- Running a command sequence appends the concatenation of the fragments,
each computed against the unchanged default mode. -/
theorem runPathCmds_pathString (cs : List PathCmd) (p : Path) :
    (runPathCmds p cs).pathString
      = p.pathString ++ concatStrings (cs.map (PathCmd.fragment p.relative)) := by
  induction cs generalizing p with
  | nil => exact (String.append_empty p.pathString).symm
  | cons c cs ih =>
    show (runPathCmds (c.apply p) cs).pathString = _
    rw [ih (c.apply p), PathCmd.apply_relative, PathCmd.apply_pathString,
        String.append_assoc]
    rfl

/-- Folding add leaves the selector unchanged. -/
theorem foldl_add_selector (ds : List ISVGElement) (s : SVG) :
    (ds.foldl SVG.add s).selector = s.selector := by
  induction ds generalizing s with
  | nil => rfl
  | cons d ds ih => exact ih (s.add d)

/-- Folding add pushes the drawables onto the element list in order. -/
theorem foldl_add_elements (ds : List ISVGElement) (s : SVG) :
    (ds.foldl SVG.add s).elements = s.elements ++ ds := by
  induction ds generalizing s with
  | nil => exact (List.append_nil s.elements).symm
  | cons d ds ih =>
    show (ds.foldl SVG.add (s.add d)).elements = _
    rw [ih (s.add d)]
    simp [SVG.add]

/-- Claim C1: for every Path and every sequence of drawing-command calls,
the accumulated pathString equals the initial string followed by the
concatenation, in call order, of the formatted fragment of each command;
every single call only appends its own fragment, so no call removes,
reorders or rewrites previously appended content. -/
theorem C1_append_only :
    (∀ (p : Path) (c : PathCmd),
       (c.apply p).pathString = p.pathString ++ c.fragment p.relative)
    ∧ (∀ (pathString : String) (relative : Bool) (cs : List PathCmd),
       (runPathCmds (Path.new pathString relative) cs).pathString
         = pathString ++ concatStrings (cs.map (PathCmd.fragment relative))) :=
  ⟨fun p c => PathCmd.apply_pathString p c,
   fun pathString relative cs => runPathCmds_pathString cs (Path.new pathString relative)⟩

/-- Claim C2: a drawing-command fragment is the command letter, upper-cased
when the resolved mode is absolute and as-supplied lower-case when relative,
then a space, the arguments in comma-separated pairs with pairs separated by
spaces, and a single trailing space; in particular moveTo 3 4 in default
absolute mode appends the string M 3,4 with a trailing space, m 3 4 appends
the lower-case variant, and curveTo 1 2 3 4 5 6 and the shorthand c append
the three-pair curve fragments. -/
theorem C2_fragment_format :
    (∀ (p : Path) (x y : Int),
       (p.moveTo x y (some ABSOLUTE)).pathString
         = p.pathString ++ ("M" ++ " " ++ (toString x ++ "," ++ toString y) ++ " ")
     ∧ (p.moveTo x y (some RELATIVE)).pathString
         = p.pathString ++ ("m" ++ " " ++ (toString x ++ "," ++ toString y) ++ " ")
     ∧ (p.lineTo x y (some ABSOLUTE)).pathString
         = p.pathString ++ ("L" ++ " " ++ (toString x ++ "," ++ toString y) ++ " ")
     ∧ (p.lineTo x y (some RELATIVE)).pathString
         = p.pathString ++ ("l" ++ " " ++ (toString x ++ "," ++ toString y) ++ " ")
     ∧ (p.cubicCurveTo x y (some ABSOLUTE)).pathString
         = p.pathString ++ ("T" ++ " " ++ (toString x ++ "," ++ toString y) ++ " ")
     ∧ (p.cubicCurveTo x y (some RELATIVE)).pathString
         = p.pathString ++ ("t" ++ " " ++ (toString x ++ "," ++ toString y) ++ " "))
    ∧ (∀ (p : Path) (x1 y1 x2 y2 endX endY : Int),
       (p.curveTo x1 y1 x2 y2 endX endY (some ABSOLUTE)).pathString
         = p.pathString ++ ("C" ++ " " ++
             (toString x1 ++ "," ++ toString y1 ++ " " ++
              toString x2 ++ "," ++ toString y2 ++ " " ++
              toString endX ++ "," ++ toString endY) ++ " ")
     ∧ (p.curveTo x1 y1 x2 y2 endX endY (some RELATIVE)).pathString
         = p.pathString ++ ("c" ++ " " ++
             (toString x1 ++ "," ++ toString y1 ++ " " ++
              toString x2 ++ "," ++ toString y2 ++ " " ++
              toString endX ++ "," ++ toString endY) ++ " "))
    ∧ (∀ (p : Path) (x1 y1 endX endY : Int),
       (p.quadCurveTo x1 y1 endX endY (some ABSOLUTE)).pathString
         = p.pathString ++ ("Q" ++ " " ++
             (toString x1 ++ "," ++ toString y1 ++ " " ++
              toString endX ++ "," ++ toString endY) ++ " ")
     ∧ (p.quadCurveTo x1 y1 endX endY (some RELATIVE)).pathString
         = p.pathString ++ ("q" ++ " " ++
             (toString x1 ++ "," ++ toString y1 ++ " " ++
              toString endX ++ "," ++ toString endY) ++ " "))
    ∧ ((Path.new "" ABSOLUTE).moveTo 3 4 none).pathString = "M 3,4 "
    ∧ ((Path.new "" ABSOLUTE).m 3 4).pathString = "m 3,4 "
    ∧ ((Path.new "" ABSOLUTE).curveTo 1 2 3 4 5 6 none).pathString = "C 1,2 3,4 5,6 "
    ∧ ((Path.new "" ABSOLUTE).c 1 2 3 4 5 6).pathString = "c 1,2 3,4 5,6 " :=
  ⟨fun _ _ _ => ⟨rfl, rfl, rfl, rfl, rfl, rfl⟩,
   fun _ _ _ _ _ _ _ => ⟨rfl, rfl⟩,
   fun _ _ _ _ _ => ⟨rfl, rfl⟩,
   rfl, rfl, rfl, rfl⟩

/-- Claim C3: close appends exactly the single character Z, with no
arguments and no trailing space, whatever the stored default mode and the
other fields of the Path, and the alias Z has the same effect. -/
theorem C3_close_fragment (p : Path) :
    p.close = { p with pathString := p.pathString ++ "Z" } ∧ p.Z = p.close :=
  ⟨rfl, rfl⟩

/-- Claim C5: materializing a freshly constructed Path, with no drawing
command and no attribute setter ever called, yields a path element whose
attributes are exactly d empty, fill black, stroke none and stroke-width
one. -/
theorem C5_default_path_element :
    (Path.new "" ABSOLUTE).toXML
      = { tag := "path"
          attributes := [("d", ""), ("fill", "black"), ("stroke", "none"), ("stroke-width", "1")]
          innerHTML := "" } :=
  rfl

/-- Claim C6: a Text whose font family list was never supplied materializes
with no font-family attribute at all, and after setting the family list to
Arial and sans-serif the materialized element carries font-family with the
two families joined by a comma. -/
theorem C6_font_family (body : String) (x y : Int) :
    List.lookup "font-family" ((Text.new body x y none).toXML).attributes = none
    ∧ List.lookup "font-family"
        (((Text.new body x y none).setFonts ["Arial", "sans-serif"]).toXML).attributes
        = some "Arial,sans-serif" :=
  ⟨rfl, rfl⟩

/-- Claim C8: setStroke with the width argument omitted stores the color and
leaves the stroke width, and every other field, unchanged. -/
theorem C8_stroke_width_snapshot (p : Path) (color : String) :
    p.setStroke color none = { p with strokeColor := color } :=
  rfl

/-- Claim C9: setting the font family list to the explicitly empty list and
materializing emits the font-family attribute with the empty-string value;
for any list the attribute value is the comma join, and the attribute is
omitted only when the family list is null, never when it is empty. -/
theorem C9_empty_font_list (body : String) (x y : Int) :
    List.lookup "font-family"
        (((Text.new body x y none).setFonts []).toXML).attributes = some ""
    ∧ (∀ fonts : List String,
       List.lookup "font-family"
           (((Text.new body x y none).setFonts fonts).toXML).attributes
         = some (String.intercalate "," fonts))
    ∧ List.lookup "font-family" ((Text.new body x y none).toXML).attributes = none :=
  ⟨rfl, fun _ => rfl, rfl⟩

/-- Claim C4 counterexample: at a concrete Container holding one Path and a
document in which no node matches the selector, render does not surface a
reported lookup error; it fails with the TypeError raised by reading
appendChild off the undefined lookup result, an unrelated message. -/
theorem C4_counterexample :
    isLookupError
        ((SVG.new "#missing" [ISVGElement.path (Path.new "" ABSOLUTE)]).render
          (fun _ => [])) = false
    ∧ (SVG.new "#missing" [ISVGElement.path (Path.new "" ABSOLUTE)]).render
          (fun _ => [])
        = .error (.typeError "Cannot read properties of undefined (reading appendChild)") :=
  ⟨rfl, rfl⟩

/-- Claim C4 amended: when the selector matches no sink, render never
reports a lookup error: with a nonempty element list it fails with the
TypeError raised by appending to the undefined lookup result, and with an
empty element list it silently does nothing; the failure is confined to the
render call, which reads but never writes the selector and element list, so
the Container state is intact for a retry. -/
theorem C4_missing_sink (s : SVG) (query : String → List Sink)
    (h : query s.selector = []) :
    isLookupError (s.render query) = false
    ∧ (s.elements = [] → s.render query = .ok none)
    ∧ (s.elements ≠ [] →
       s.render query
         = .error (.typeError "Cannot read properties of undefined (reading appendChild)")) := by
  cases hE : s.elements with
  | nil => simp [SVG.render, isLookupError, h, hE]
  | cons e es => simp [SVG.render, isLookupError, h, hE]

/-- Claim C4 amended, witness at a concrete empty Container and empty
document. -/
theorem C4_missing_sink_witness :
    isLookupError ((SVG.new "#gone" []).render (fun _ => [])) = false
    ∧ ((SVG.new "#gone" []).elements = [] →
       (SVG.new "#gone" []).render (fun _ => []) = .ok none)
    ∧ ((SVG.new "#gone" []).elements ≠ [] →
       (SVG.new "#gone" []).render (fun _ => [])
         = .error (.typeError "Cannot read properties of undefined (reading appendChild)")) :=
  C4_missing_sink (SVG.new "#gone" []) (fun _ => []) rfl

/-- Claim C7: render materializes the added drawables and appends the
results to the matched sink as children in exactly the order the drawables
were added, with no de-duplication and no length limit. -/
theorem C7_render_order (selector : String) (ds : List ISVGElement)
    (query : String → List Sink) (sink : Sink)
    (h : (query selector).head? = some sink) :
    (ds.foldl SVG.add (SVG.new selector [])).render query
      = .ok (some { sink with children := sink.children ++ ds.map ISVGElement.toXML }) := by
  have hsel : (ds.foldl SVG.add (SVG.new selector [])).selector = selector :=
    foldl_add_selector ds (SVG.new selector [])
  have helts : (ds.foldl SVG.add (SVG.new selector [])).elements = ds :=
    foldl_add_elements ds (SVG.new selector [])
  simp [SVG.render, hsel, helts, h]

/-- Claim C7 witness: two identical paths added to a fresh Container render
into a matching empty sink as two children in add order. -/
theorem C7_render_order_witness :
    ([ISVGElement.path (Path.new "" ABSOLUTE),
      ISVGElement.path (Path.new "" ABSOLUTE)].foldl SVG.add
        (SVG.new "#svg" [])).render (fun _ => [Sink.mk []])
      = .ok (some (Sink.mk
          (([] : List Element) ++
            [ISVGElement.path (Path.new "" ABSOLUTE),
             ISVGElement.path (Path.new "" ABSOLUTE)].map ISVGElement.toXML))) :=
  C7_render_order "#svg"
    [ISVGElement.path (Path.new "" ABSOLUTE), ISVGElement.path (Path.new "" ABSOLUTE)]
    (fun _ => [Sink.mk []]) (Sink.mk []) rfl

/-- Claim C10: every drawing-command call mutates only the accumulated
pathString, leaving the default mode flag, fill color, stroke color and
stroke width unchanged, and no Path operation modifies the default mode
flag after construction. -/
theorem C10_drawing_frame (p : Path) (c : PathCmd) :
    (c.apply p).relative = p.relative
    ∧ (c.apply p).fillColor = p.fillColor
    ∧ (c.apply p).strokeColor = p.strokeColor
    ∧ (c.apply p).strokeWidth = p.strokeWidth
    ∧ (∀ color : String, (p.setFill color).relative = p.relative)
    ∧ (∀ (color : String) (w : Option Int), (p.setStroke color w).relative = p.relative)
    ∧ (∀ w : Int, (p.setStrokeWidth w).relative = p.relative) :=
  ⟨PathCmd.apply_relative p c, PathCmd.apply_fillColor p c,
   PathCmd.apply_strokeColor p c, PathCmd.apply_strokeWidth p c,
   fun _ => rfl, fun _ _ => rfl, fun _ => rfl⟩

end YASH
